import Mathlib

/-!
# Verification of the diary backend (`main.py`)

Shallow embedding of the core request pipeline of the diary backend:
the `add_diary_entry` endpoint (validation, Drive uploads, transcription),
the `speech_to_text` helper, and the `search_diary_entries` endpoint.

Modelling conventions:
* Third-party collaborators are modelled as cooperating oracles, following
  the scoping in the spec (Google OAuth flow, the Drive client and the
  speech-recognition stack are external): `upload_to_drive` appends a file
  to an explicit Drive state and returns a fresh numeric locator, and the
  recognition stack (`soundfile` decode + `recognizer.record` +
  `recognize_google`) is a parameter `recog : String → Except String String`
  returning either recognised text or an exception message.
* Python byte strings are modelled as `String`; the Drive file id as `Nat`.
* A raised exception is an `Except.error`; `HTTPError` mirrors
  `HTTPException` with its status code and detail, and `httpStr` mirrors
  starlette's rendering `str(e) = "{status}: {detail}"` used by the blanket
  handler `except Exception as e: raise HTTPException(500, str(e))`.
* The timestamp `datetime.now().strftime("%Y%m%d_%H%M%S")` is an input `ts`.
* `speech_to_text` receives a dynamically typed Python value (`PyVal`):
  the endpoint passes the temp-file *path* (a `str`), while the function
  body runs `BytesIO(audio_bytes)`, which raises `TypeError` on a `str`
  argument before the internal `try` block is entered.
-/

set_option autoImplicit false

namespace Diary

/-- The single-quote character, built from its code point so that the
development never spells a quote in source text. -/
def squoteC : Char := Char.ofNat 39

/-- The single-quote character as a one-character string. -/
def squoteS : String := String.mk [squoteC]

/-- A dynamically typed Python value handed to `speech_to_text`: either a
byte string or a `str`.  The endpoint passes a `str` (the temp-file path). -/
inductive PyVal where
  | bytes (b : String)
  | str (s : String)
  deriving DecidableEq

/-- An incoming multipart upload: `fastapi.UploadFile` with its filename,
raw content and MIME type. -/
structure UploadFile where
  filename : String
  content : String
  content_type : String
  deriving DecidableEq

/-- One file stored on the (modelled) Google Drive: locator, logical name,
raw bytes and MIME type. -/
structure DriveFile where
  fileId : Nat
  name : String
  content : String
  mimeType : String
  deriving DecidableEq

/-- The modelled Drive: the stored files in upload order plus the next
fresh locator. -/
structure DriveState where
  files : List DriveFile
  nextId : Nat
  deriving DecidableEq

/-- Mirrors `fastapi.HTTPException`: a status code and a detail string. -/
structure HTTPError where
  status_code : Nat
  detail : String
  deriving DecidableEq

/-- Starlette's `str(HTTPException)` rendering, used by the blanket
`except Exception` handler when it wraps a caught exception. -/
def httpStr (e : HTTPError) : String :=
  toString e.status_code ++ ": " ++ e.detail

/-- One record of the `entry_files` list returned by `add_diary_entry`:
`{"type": ..., "file_id": ..., ["transcription_file_id": ...]}`. -/
structure FileRec where
  type : String
  file_id : Nat
  transcription_file_id : Option Nat
  deriving DecidableEq

/-- The JSON body returned by `add_diary_entry` on success. -/
structure EntryResponse where
  message : String
  files : List FileRec
  deriving DecidableEq

/-- The projection of a Drive file returned by `files().list(...)` with
`fields = files(id, name, mimeType)`. -/
structure FileMeta where
  fileId : Nat
  name : String
  mimeType : String
  deriving DecidableEq

/-- `upload_to_drive` (modelled): the wrapper around the external Drive
client persists `content` under `name` and returns the locator of the new
file.  The model appends to the Drive state and hands out `nextId`. -/
def upload_to_drive (st : DriveState) (name content mime : String) :
    Nat × DriveState :=
  (st.nextId, ⟨st.files ++ [⟨st.nextId, name, content, mime⟩], st.nextId + 1⟩)

/-- The Python `TypeError` message raised by `BytesIO` when it is given a
`str` instead of a bytes-like object. -/
def typeErrorMsg : String :=
  "a bytes-like object is required, not " ++ squoteS ++ "str" ++ squoteS

/-- `speech_to_text` from `main.py`.  On a `str` argument,
`BytesIO(audio_bytes)` raises `TypeError` before the `try` block, so the
exception propagates.  On a byte string, the recognition stack `recog`
runs inside `try`; an exception `e` there is caught and converted to the
return value `"Speech recognition error: " + str(e)`. -/
def speech_to_text (recog : String → Except String String) :
    PyVal → Except String String
  | PyVal.str _ => Except.error typeErrorMsg
  | PyVal.bytes b =>
    match recog b with
    | Except.ok t => Except.ok t
    | Except.error e => Except.ok ("Speech recognition error: " ++ e)

/-- Python truthiness of the optional `text` parameter: `None` and the
empty string are falsy. -/
def truthyText : Option String → Bool
  | none => false
  | some s => s != ""

/-- The temp-file path `f"temp_audio_{timestamp}.wav"` whose *path string*
is what `add_diary_entry` passes to `speech_to_text`. -/
def tempAudioPath (ts : String) : String :=
  "temp_audio_" ++ ts ++ ".wav"

/-- The success message of `add_diary_entry`. -/
def msgSaved : String := "Diary entry successfully saved"

/-- The text-upload and image-upload parts of `add_diary_entry`
(lines 123-142): if `text` is truthy, upload it under
`f"diary_entry_{timestamp}.txt"` and append a `"text"` record; if `image`
is present, upload it under `f"diary_image_{timestamp}{image.filename}"`
and append an `"image"` record.  Returns the accumulated `entry_files`
and the Drive state. -/
def text_image_uploads (text : Option String) (image : Option UploadFile)
    (ts : String) (st : DriveState) : List FileRec × DriveState :=
  let p :=
    if truthyText text then
      let up := upload_to_drive st ("diary_entry_" ++ ts ++ ".txt")
        (text.getD ("")) ("text/plain")
      ([(⟨"text", up.1, none⟩ : FileRec)], up.2)
    else ([], st)
  match image with
  | some img =>
    let up := upload_to_drive p.2 ("diary_image_" ++ ts ++ img.filename)
      img.content img.content_type
    (p.1 ++ [(⟨"image", up.1, none⟩ : FileRec)], up.2)
  | none => p

/-- The body of the `add_diary_entry` endpoint (lines 99-181), with the
transcriber as an explicit collaborator parameter (the endpoint itself
instantiates it with `speech_to_text`, see `add_diary_entry`).

The whole body runs inside `try`: the validation failure raises
`HTTPException(400, ...)`, which the blanket `except Exception` catches
and re-raises as `HTTPException(500, str(e))`; likewise any exception
escaping the transcriber becomes a 500.  If `audio` is present its bytes
are uploaded under `f"diary_audio_{timestamp}{audio.filename}"`, the bytes
are written to a temp file, and the temp-file *path* is passed to the
transcriber; a truthy transcription is uploaded as its own file and an
`"audio"` record (with both locators) is appended. -/
def add_entry_core (transcribe : PyVal → Except String String)
    (text : Option String) (image audio : Option UploadFile)
    (ts : String) (st : DriveState) :
    DriveState × Except HTTPError EntryResponse :=
  if truthyText text || image.isSome || audio.isSome then
    let fs := text_image_uploads text image ts st
    match audio with
    | none => (fs.2, Except.ok ⟨msgSaved, fs.1⟩)
    | some au =>
      let up := upload_to_drive fs.2 ("diary_audio_" ++ ts ++ au.filename)
        au.content au.content_type
      match transcribe (PyVal.str (tempAudioPath ts)) with
      | Except.error e => (up.2, Except.error ⟨500, e⟩)
      | Except.ok transcription =>
        if transcription != ("") then
          let up2 := upload_to_drive up.2
            ("audio_transcription_" ++ ts ++ ".txt") transcription
            ("text/plain")
          (up2.2, Except.ok
            ⟨msgSaved, fs.1 ++ [(⟨"audio", up.1, some up2.1⟩ : FileRec)]⟩)
        else (up.2, Except.ok ⟨msgSaved, fs.1⟩)
  else
    (st, Except.error
      ⟨500, httpStr ⟨400, "At least one content type must be provided"⟩⟩)

/-- The `add_diary_entry` endpoint: `add_entry_core` with the transcriber
instantiated by the actual `speech_to_text` over the recognition oracle. -/
def add_diary_entry (recog : String → Except String String)
    (text : Option String) (image audio : Option UploadFile)
    (ts : String) (st : DriveState) :
    DriveState × Except HTTPError EntryResponse :=
  add_entry_core (speech_to_text recog) text image audio ts st

/-! ## The search endpoint -/

/-- ASCII lowercasing of one character (the case folding relevant to the
file names and queries involved). -/
def lowerChar (c : Char) : Char :=
  if 65 ≤ c.toNat && c.toNat ≤ 90 then Char.ofNat (c.toNat + 32) else c

/-- Does the character list `s` start with `pre`? -/
def startsWithL : List Char → List Char → Bool
  | _, [] => true
  | [], _ :: _ => false
  | a :: as, b :: bs => a == b && startsWithL as bs

/-- Does the character list `s` contain `sub` as a contiguous sublist? -/
def containsSubL : List Char → List Char → Bool
  | [], sub => sub.isEmpty
  | a :: as, sub => startsWithL (a :: as) sub || containsSubL as sub

/-- Case-insensitive substring test on strings (ASCII case folding);
used to model the Drive backend's case-insensitive `name contains`
matching, and to express the spec's lowercased-substring predicate. -/
def containsCI (s lit : String) : Bool :=
  containsSubL (s.data.map lowerChar) (lit.data.map lowerChar)

/-- The filter string built by `search_diary_entries` (line 193):
`f"name contains '{query}'"`, the query inserted verbatim and unescaped. -/
def searchFilter (q : String) : String :=
  "name contains " ++ squoteS ++ q ++ squoteS

/-- Drop an expected literal from the front of a character list. -/
def dropPrefL : List Char → List Char → Option (List Char)
  | [], s => some s
  | _ :: _, [] => none
  | a :: as, b :: bs => if b = a then dropPrefL as bs else none

/-- Split a character list at its first single quote: the part before the
quote (which therefore contains no quote) and the part after it. -/
def breakAtQuote : List Char → Option (List Char × List Char)
  | [] => none
  | c :: cs =>
    if c = squoteC then some ([], cs)
    else (breakAtQuote cs).map (fun p => (c :: p.1, p.2))

/-- The fixed prefix of a well-formed `name contains` filter, up to and
including the opening quote. -/
def headerL : List Char := ("name contains ").data ++ [squoteC]

/-- Parser for the Drive query grammar fragment the endpoint emits: a
filter is well-formed iff it is `name contains` followed by a
single-quoted literal (hence the literal cannot contain a quote) with
nothing after the closing quote; returns the literal. -/
def parseNameContains (s : String) : Option String :=
  match dropPrefL headerL s.data with
  | none => none
  | some rest =>
    match breakAtQuote rest with
    | none => none
    | some (lit, after) =>
      if after.isEmpty then some (String.mk lit) else none

/-- The external Drive `files().list(q=..., fields=files(id,name,mimeType))`
call (modelled): a well-formed `name contains` filter returns the metadata
of the stored files whose name contains the literal (case-insensitively),
in stored order; a malformed filter is an invalid query and raises. -/
def drive_files_list (st : DriveState) (q : String) :
    Except String (List FileMeta) :=
  match parseNameContains q with
  | some lit =>
    Except.ok ((st.files.filter (fun f => containsCI f.name lit)).map
      (fun f => ⟨f.fileId, f.name, f.mimeType⟩))
  | none => Except.error ("Invalid query")

/-- The `search_diary_entries` endpoint (lines 183-202): builds the filter
string from the query, delegates to Drive, and converts any exception to
`HTTPException(500, str(e))`. -/
def search_diary_entries (st : DriveState) (query : String) :
    Except HTTPError (List FileMeta) :=
  match drive_files_list st (searchFilter query) with
  | Except.ok l => Except.ok l
  | Except.error e => Except.error ⟨500, e⟩

/-! ## Spec-side predicates and concrete fixtures -/

/-- The spec claim's attachment-kind invariant: every record of the files
list is an image or an audio record. -/
def kindsOnlyImageAudio (fs : List FileRec) : Prop :=
  ∀ r ∈ fs, r.type = "image" ∨ r.type = "audio"

instance (fs : List FileRec) : Decidable (kindsOnlyImageAudio fs) :=
  inferInstanceAs (Decidable (∀ r ∈ fs, _ ∨ _))

/-- The position of a record kind in the order the endpoint appends them. -/
def kindRank (t : String) : Nat :=
  if t = "text" then 0 else if t = "image" then 1
  else if t = "audio" then 2 else 3

/-- Empty Drive, fresh locators from 0. -/
def st0 : DriveState := ⟨[], 0⟩

/-- A fixed request timestamp. -/
def ts0 : String := "20240101_120000"

/-- The Drive state after creating a single text entry with text
`"Morning run"` at `ts0` from the empty Drive. -/
def entryStoreC5 : DriveState :=
  ⟨[⟨0, "diary_entry_20240101_120000.txt", "Morning run", "text/plain"⟩], 1⟩

/-- A Drive state with two files: one whose name does not contain
`"run"` and one whose name does. -/
def wStateC5 : DriveState :=
  ⟨[⟨0, "a.txt", "x", "text/plain"⟩,
    ⟨1, "morningb.txt", "y", "text/plain"⟩], 2⟩

/-- A Drive state exercising the search endpoint: a file whose *name*
contains `"note"` but whose content does not, a file whose *content*
contains `"note"` but whose name does not, and a file whose name
contains a single quote. -/
def st10 : DriveState :=
  ⟨[⟨0, "notes_1.md", "hello", "text/plain"⟩,
    ⟨1, "beta.md", "note to self", "text/plain"⟩,
    ⟨2, "a" ++ squoteS ++ "b.md", "q", "text/plain"⟩], 3⟩

/-! ## Helper lemmas -/

theorem strDataAppend (a b : String) : (a ++ b).data = a.data ++ b.data := by
  cases a; cases b; rfl

theorem containsSubL_nil (l : List Char) : containsSubL l [] = true := by
  cases l <;> rfl

theorem containsCI_empty (s : String) : containsCI s ("") = true := by
  have h : (("") : String).data.map lowerChar = [] := rfl
  simp only [containsCI, h, containsSubL_nil]

theorem startsWithL_append_self (x y : List Char) :
    startsWithL (x ++ y) x = true := by
  induction x with
  | nil => cases y <;> rfl
  | cons a as ih => simp [startsWithL, ih]

theorem dropPrefL_append (pre s : List Char) :
    dropPrefL pre (pre ++ s) = some s := by
  induction pre with
  | nil => rfl
  | cons a as ih => simp [dropPrefL, ih]

theorem breakAtQuote_append (l : List Char) (h : squoteC ∉ l) :
    breakAtQuote (l ++ [squoteC]) = some (l, []) := by
  induction l with
  | nil => simp [breakAtQuote]
  | cons a as ih =>
    have ha : ¬ a = squoteC := fun hc => h (hc ▸ List.mem_cons_self a as)
    have has : squoteC ∉ as := fun hm => h (List.mem_cons_of_mem a hm)
    simp [breakAtQuote, ha, ih has]

theorem parse_searchFilter (q : String) (h : squoteC ∉ q.data) :
    parseNameContains (searchFilter q) = some q := by
  have hdata : (searchFilter q).data = headerL ++ (q.data ++ [squoteC]) := by
    simp only [searchFilter, strDataAppend, headerL, squoteS,
      List.append_assoc]
  simp only [parseNameContains, hdata, dropPrefL_append,
    breakAtQuote_append q.data h, List.isEmpty_nil, if_true]

/-! ## C1 -/

/-- Claim C1 (code bug): with explicit text `"hello"` and an audio
attachment whose recognition would yield `"world"`, the claim says the
resulting entry's text is `"hello"` with the transcription discarded.
The code instead fails: after uploading both blobs, it passes the
temp-file path (a `str`) to `speech_to_text`, whose `BytesIO` raises
`TypeError`; the blanket handler turns this into HTTP 500, so no entry is
produced at all. -/
theorem C1_code_bug_eval :
    add_diary_entry (fun _ => Except.ok ("world")) (some ("hello")) none
      (some ⟨"voice.wav", "AUDIOBYTES", "audio/wav"⟩) ts0 st0 =
    (⟨[⟨0, "diary_entry_20240101_120000.txt", "hello", "text/plain"⟩,
       ⟨1, "diary_audio_20240101_120000voice.wav", "AUDIOBYTES",
        "audio/wav"⟩], 2⟩,
     Except.error ⟨500, typeErrorMsg⟩) := by
  rfl

/-! ## C3 -/

/-- Claim C3 (code bug): the claim says an audio-only request whose
transcription fails still succeeds with empty text and one audio
attachment.  The code instead uploads the audio blob and then fails with
HTTP 500: the temp-file path is passed to the bytes-expecting
`speech_to_text`, the `TypeError` escapes to the blanket handler. -/
theorem C3_code_bug_eval :
    add_diary_entry (fun _ => Except.error ("malformed audio")) none none
      (some ⟨"voice.wav", "NOTAWAV", "audio/wav"⟩) ts0 st0 =
    (⟨[⟨0, "diary_audio_20240101_120000voice.wav", "NOTAWAV",
        "audio/wav"⟩], 1⟩,
     Except.error ⟨500, typeErrorMsg⟩) := by
  rfl

/-! ## C4 -/

/-- Claim C4 (code bug): a request with no text, no image and no audio is
rejected before any upload (the Drive state is returned unchanged), but
the explicit `HTTPException(400, ...)` is caught by the endpoint's own
blanket `except Exception` and re-raised as
`HTTPException(500, str(e))` — the client observes a server error 500,
not the claimed client error. -/
theorem C4_code_bug_eval (recog : String → Except String String)
    (ts : String) (st : DriveState) :
    add_diary_entry recog none none none ts st =
    (st, Except.error
      ⟨500, "400: At least one content type must be provided"⟩) := by
  rfl

/-! ## C2 -/

/-- Claim C2 (counterexample): the claim says a failing transcription
returns the empty string.  On a byte-string input whose recognition
stack fails, `speech_to_text` instead returns the non-empty message
`"Speech recognition error: ..."`. -/
theorem C2_counterexample :
    speech_to_text (fun _ => Except.error ("boom")) (PyVal.bytes ("RIFF")) =
      Except.ok ("Speech recognition error: boom")
    ∧ ("Speech recognition error: boom" : String) ≠ ("") := by
  exact ⟨rfl, by decide⟩

/-- Claim C2 (amended): for byte-string inputs, any error raised by the
decoding/recognition stack is caught internally and `speech_to_text`
returns — rather than raises — the *non-empty* string
`"Speech recognition error: " ++ e`, not the empty string. -/
theorem C2_amended_caught (recog : String → Except String String)
    (b e : String) (h : recog b = Except.error e) :
    speech_to_text recog (PyVal.bytes b) =
      Except.ok ("Speech recognition error: " ++ e)
    ∧ ("Speech recognition error: " ++ e) ≠ ("") := by
  constructor
  · simp [speech_to_text, h]
  · intro hc
    have hd := congrArg String.data hc
    rw [strDataAppend] at hd
    exact absurd (List.append_eq_nil.mp hd).1 (by decide)

/-- Witness for `C2_amended_caught` at a concrete failing recognition. -/
theorem C2_amended_witness :
    (fun _ : String => (Except.error ("boom") : Except String String)) ("B") =
      Except.error ("boom")
    ∧ (speech_to_text (fun _ => Except.error ("boom")) (PyVal.bytes ("B")) =
        Except.ok ("Speech recognition error: " ++ "boom")
      ∧ ("Speech recognition error: " ++ "boom") ≠ ("")) :=
  ⟨rfl, C2_amended_caught (fun _ => Except.error ("boom")) ("B") ("boom") rfl⟩

/-! ## C5 -/

/-- Claim C5 (counterexample): an entry is created whose text
`"Morning run"` lower-contains the query `"morning"`, yet
`search_diary_entries` returns the empty list for that query — the
search filters on generated Drive file *names*, not on entry text, so
the claimed lowercased-substring-of-text semantics fails. -/
theorem C5_counterexample :
    add_diary_entry (fun _ => Except.error ("unused"))
        (some ("Morning run")) none none ts0 st0 =
      (entryStoreC5, Except.ok ⟨msgSaved, [⟨"text", 0, none⟩]⟩)
    ∧ containsCI ("Morning run") ("morning") = true
    ∧ search_diary_entries entryStoreC5 ("morning") = Except.ok [] := by
  exact ⟨rfl, by decide, rfl⟩

/-- Claim C5 (amended): for any quote-free query, the search endpoint
returns exactly the metadata of the stored Drive files whose *name*
contains the query (case-insensitively, per the modelled backend), in
stored order; and the empty query returns every stored file.  Entry text
plays no role. -/
theorem C5_amended (st : DriveState) (q : String) (h : squoteC ∉ q.data) :
    search_diary_entries st q =
      Except.ok ((st.files.filter (fun f => containsCI f.name q)).map
        (fun f => ⟨f.fileId, f.name, f.mimeType⟩))
    ∧ search_diary_entries st ("") =
      Except.ok (st.files.map (fun f => ⟨f.fileId, f.name, f.mimeType⟩)) := by
  constructor
  · simp only [search_diary_entries, drive_files_list, parse_searchFilter q h]
  · have h0 : squoteC ∉ (("") : String).data := by decide
    simp only [search_diary_entries, drive_files_list,
      parse_searchFilter _ h0]
    rw [List.filter_eq_self.mpr (fun a _ => containsCI_empty a.name)]

/-- Witness for `C5_amended` at a concrete state and query. -/
theorem C5_amended_witness :
    squoteC ∉ (("run") : String).data
    ∧ (search_diary_entries wStateC5 ("run") =
        Except.ok ((wStateC5.files.filter
          (fun f => containsCI f.name ("run"))).map
            (fun f => ⟨f.fileId, f.name, f.mimeType⟩))
      ∧ search_diary_entries wStateC5 ("") =
        Except.ok (wStateC5.files.map
          (fun f => ⟨f.fileId, f.name, f.mimeType⟩))) :=
  ⟨by decide, C5_amended wStateC5 ("run") (by decide)⟩

/-! ## C7 -/

/-- Claim C7 (counterexample): the image blob of a create-entry request
is persisted under `"diary_image_{timestamp}{filename}"`; no generated
entry id exists, and the resulting name is not of the claimed form
`"{entryId}_{originalFilename}"` for any entry id. -/
theorem C7_counterexample :
    add_diary_entry (fun _ => Except.error ("unused")) none
        (some ⟨"pic.png", "PNGBYTES", "image/png"⟩) none ts0 st0 =
      (⟨[⟨0, "diary_image_20240101_120000pic.png", "PNGBYTES",
          "image/png"⟩], 1⟩,
       Except.ok ⟨msgSaved, [⟨"image", 0, none⟩]⟩)
    ∧ ¬ ∃ eid : String,
        ("diary_image_20240101_120000pic.png" : String) =
          eid ++ "_" ++ "pic.png" := by
  refine ⟨rfl, ?_⟩
  rintro ⟨eid, he⟩
  have hd := congrArg String.data he
  rw [strDataAppend, strDataAppend, List.append_assoc] at hd
  have h2 : startsWithL
      (String.data ("diary_image_20240101_120000pic.png")).reverse
      ((String.data ("_") ++ String.data ("pic.png")).reverse) = true := by
    rw [hd, List.reverse_append]
    exact startsWithL_append_self _ _
  exact absurd h2 (by decide)

/-- Claim C7 (amended): attachment bytes are uploaded under
`"diary_image_{timestamp}{filename}"` (image) respectively
`"diary_audio_{timestamp}{filename}"` (audio) — a timestamp of second
granularity with the filename appended directly, with no per-entry id
anywhere, so two requests in the same second with the same filename
produce the same blob name.  The audio blob is written even though the
request then fails in the transcription step. -/
theorem C7_amended (recog : String → Except String String)
    (ts fn c m : String) (st : DriveState) :
    add_diary_entry recog none (some ⟨fn, c, m⟩) none ts st =
      (⟨st.files ++ [⟨st.nextId, "diary_image_" ++ ts ++ fn, c, m⟩],
        st.nextId + 1⟩,
       Except.ok ⟨msgSaved, [⟨"image", st.nextId, none⟩]⟩)
    ∧ add_diary_entry recog none none (some ⟨fn, c, m⟩) ts st =
      (⟨st.files ++ [⟨st.nextId, "diary_audio_" ++ ts ++ fn, c, m⟩],
        st.nextId + 1⟩,
       Except.error ⟨500, typeErrorMsg⟩) := by
  exact ⟨rfl, rfl⟩

/-! ## C8 and C9: structure of the files list -/

theorem tiu_types (tx : Option String) (im : Option UploadFile)
    (ts : String) (st : DriveState) :
    (text_image_uploads tx im ts st).1.map FileRec.type = [] ∨
    (text_image_uploads tx im ts st).1.map FileRec.type = [("text")] ∨
    (text_image_uploads tx im ts st).1.map FileRec.type = [("image")] ∨
    (text_image_uploads tx im ts st).1.map FileRec.type =
      [("text"), ("image")] := by
  cases htx : truthyText tx <;> rcases im with _ | img <;>
    simp [text_image_uploads, htx, upload_to_drive]

theorem tiu_no_audio (tx : Option String) (im : Option UploadFile)
    (ts : String) (st : DriveState) :
    ∀ r ∈ (text_image_uploads tx im ts st).1, r.type ≠ ("audio") := by
  intro r hr
  have hmem := List.mem_map_of_mem FileRec.type hr
  rcases tiu_types tx im ts st with hm | hm | hm | hm <;> rw [hm] at hmem
  · exact absurd hmem (List.not_mem_nil _)
  · rw [List.mem_singleton.mp hmem]; decide
  · rw [List.mem_singleton.mp hmem]; decide
  · rcases List.mem_cons.mp hmem with h1 | h1
    · rw [h1]; decide
    · rw [List.mem_singleton.mp h1]; decide

theorem respProps_of_types (fs : List FileRec) (L : List String)
    (hm : fs.map FileRec.type = L)
    (h1 : ∀ s ∈ L, s = ("text") ∨ s = ("image") ∨ s = ("audio"))
    (h2 : L.Pairwise (fun a b => kindRank a < kindRank b)) :
    (∀ r ∈ fs,
        r.type = ("text") ∨ r.type = ("image") ∨ r.type = ("audio"))
    ∧ fs.Pairwise (fun a b => kindRank a.type < kindRank b.type) := by
  subst hm
  constructor
  · intro r hr
    exact h1 _ (List.mem_map_of_mem FileRec.type hr)
  · have h3 := List.pairwise_map.mp h2
    exact h3

/-- Claim C8 (amended): on every successful create-entry response, the
files list contains at most one record of each kind, the kinds are drawn
from `{text, image, audio}` (a `"text"` record exists, beyond the
claim's `{image, audio}`), and the records are strictly ordered as
text, then image, then audio.  Stated over the endpoint body with the
transcriber as a parameter so that the audio branch is reachable. -/
theorem C8_amended (t : PyVal → Except String String) (tx : Option String)
    (im au : Option UploadFile) (ts : String) (st st1 : DriveState)
    (resp : EntryResponse)
    (h : add_entry_core t tx im au ts st = (st1, Except.ok resp)) :
    (∀ r ∈ resp.files,
        r.type = ("text") ∨ r.type = ("image") ∨ r.type = ("audio"))
    ∧ resp.files.Pairwise (fun a b => kindRank a.type < kindRank b.type) := by
  unfold add_entry_core at h
  split at h
  · rcases au with _ | au₀
    · rw [Prod.mk.injEq] at h
      obtain ⟨-, h2⟩ := h
      injection h2 with h3
      subst h3
      rcases tiu_types tx im ts st with hm | hm | hm | hm
      · exact respProps_of_types _ _ hm (by decide) (by decide)
      · exact respProps_of_types _ _ hm (by decide) (by decide)
      · exact respProps_of_types _ _ hm (by decide) (by decide)
      · exact respProps_of_types _ _ hm (by decide) (by decide)
    · rcases htr : t (PyVal.str (tempAudioPath ts)) with e | tr <;>
        simp only [htr] at h
      · rw [Prod.mk.injEq] at h
        exact absurd h.2 (by simp)
      · split at h
        · rw [Prod.mk.injEq] at h
          obtain ⟨-, h2⟩ := h
          injection h2 with h3
          subst h3
          rcases tiu_types tx im ts st with hm | hm | hm | hm
          · exact respProps_of_types _ ([("audio")])
              (by simp [hm]) (by decide) (by decide)
          · exact respProps_of_types _ ([("text"), ("audio")])
              (by simp [hm]) (by decide) (by decide)
          · exact respProps_of_types _ ([("image"), ("audio")])
              (by simp [hm]) (by decide) (by decide)
          · exact respProps_of_types _ ([("text"), ("image"), ("audio")])
              (by simp [hm]) (by decide) (by decide)
        · rw [Prod.mk.injEq] at h
          obtain ⟨-, h2⟩ := h
          injection h2 with h3
          subst h3
          rcases tiu_types tx im ts st with hm | hm | hm | hm
          · exact respProps_of_types _ _ hm (by decide) (by decide)
          · exact respProps_of_types _ _ hm (by decide) (by decide)
          · exact respProps_of_types _ _ hm (by decide) (by decide)
          · exact respProps_of_types _ _ hm (by decide) (by decide)
  · rw [Prod.mk.injEq] at h
    exact absurd h.2 (by simp)

/-- Claim C8 (counterexample): a successful create-entry response whose
files list contains a `"text"` record, a kind outside the claim's
`{image, audio}`. -/
theorem C8_counterexample :
    add_diary_entry (fun _ => Except.error ("unused")) (some ("hi"))
        none none ts0 st0 =
      (⟨[⟨0, "diary_entry_20240101_120000.txt", "hi", "text/plain"⟩], 1⟩,
       Except.ok ⟨msgSaved, [⟨"text", 0, none⟩]⟩)
    ∧ ¬ kindsOnlyImageAudio [⟨"text", 0, none⟩] := by
  exact ⟨rfl, by decide⟩

/-- Witness for `C8_amended`: a request with text, image and audio whose
transcription yields `"note"` succeeds with a text, an image and an
audio record in that order. -/
theorem C8_amended_witness :
    (∀ r ∈ [(⟨"text", 0, none⟩ : FileRec), ⟨"image", 1, none⟩,
        ⟨"audio", 2, some 3⟩],
      r.type = ("text") ∨ r.type = ("image") ∨ r.type = ("audio"))
    ∧ List.Pairwise (fun a b => kindRank a.type < kindRank b.type)
        [(⟨"text", 0, none⟩ : FileRec), ⟨"image", 1, none⟩,
         ⟨"audio", 2, some 3⟩] :=
  C8_amended (fun _ => Except.ok ("note")) (some ("hi"))
    (some ⟨"p.png", "IMG", "image/png"⟩)
    (some ⟨"v.wav", "AUD", "audio/wav"⟩) ts0 st0
    ⟨[⟨0, "diary_entry_20240101_120000.txt", "hi", "text/plain"⟩,
      ⟨1, "diary_image_20240101_120000p.png", "IMG", "image/png"⟩,
      ⟨2, "diary_audio_20240101_120000v.wav", "AUD", "audio/wav"⟩,
      ⟨3, "audio_transcription_20240101_120000.txt", "note",
       "text/plain"⟩], 4⟩
    ⟨msgSaved, [⟨"text", 0, none⟩, ⟨"image", 1, none⟩,
      ⟨"audio", 2, some 3⟩]⟩ rfl

/-- Claim C9 (confirmed): whenever the transcriber hands back an empty
(falsy) string for the temp-file path, the request still succeeds, the
audio bytes have been uploaded to the Drive state under the audio blob
name, and yet no `"audio"` record appears anywhere in the returned files
list.  Stated over the endpoint body with the transcriber as an explicit
collaborator, since the concrete `speech_to_text` composition never
returns an empty string (it raises on the `str` path it is given, and
otherwise wraps failures in a non-empty message). -/
theorem C9_falsy_transcription (t : PyVal → Except String String)
    (tx : Option String) (im : Option UploadFile) (au : UploadFile)
    (ts : String) (st : DriveState)
    (h : t (PyVal.str (tempAudioPath ts)) = Except.ok ("")) :
    ∃ st1 resp,
      add_entry_core t tx im (some au) ts st = (st1, Except.ok resp)
      ∧ (∀ r ∈ resp.files, r.type ≠ ("audio"))
      ∧ ∃ f ∈ st1.files,
          f.name = "diary_audio_" ++ ts ++ au.filename
          ∧ f.content = au.content := by
  refine ⟨(upload_to_drive (text_image_uploads tx im ts st).2
      ("diary_audio_" ++ ts ++ au.filename) au.content au.content_type).2,
    ⟨msgSaved, (text_image_uploads tx im ts st).1⟩, ?_, ?_, ?_⟩
  · simp only [add_entry_core, Option.isSome_some, Bool.or_true, h]
    rfl
  · exact tiu_no_audio tx im ts st
  · refine ⟨⟨(text_image_uploads tx im ts st).2.nextId,
      "diary_audio_" ++ ts ++ au.filename, au.content,
      au.content_type⟩, ?_, rfl, rfl⟩
    simp [upload_to_drive]

/-- Witness for `C9_falsy_transcription` at a concrete audio-only
request and a transcriber returning the empty string. -/
theorem C9_witness :
    (fun _ : PyVal => (Except.ok ("") : Except String String))
        (PyVal.str (tempAudioPath ts0)) = Except.ok ("")
    ∧ ∃ st1 resp,
        add_entry_core (fun _ => Except.ok ("")) none none
            (some ⟨"v.wav", "AUDIO", "audio/wav"⟩) ts0 st0 =
          (st1, Except.ok resp)
        ∧ (∀ r ∈ resp.files, r.type ≠ ("audio"))
        ∧ ∃ f ∈ st1.files,
            f.name = "diary_audio_" ++ ts0 ++ "v.wav"
            ∧ f.content = ("AUDIO") :=
  ⟨rfl, C9_falsy_transcription (fun _ => Except.ok ("")) none none
    ⟨"v.wav", "AUDIO", "audio/wav"⟩ ts0 st0 rfl⟩

/-! ## C10 -/

/-- Claim C10 (confirmed): the search endpoint builds its backend filter
by inserting the query verbatim and unescaped into
`"name contains '{query}'"`; a query containing a single quote makes the
filter ill-formed (the backend rejects it and the endpoint returns a 500
rather than searching for the query literally, even when a file name
containing that very query exists); and matching is on stored file
names, not entry text: the file whose *name* contains `"note"` is
returned while the file whose *content* contains `"note"` is not. -/
theorem C10_search_semantics :
    (∀ q : String,
      searchFilter q = "name contains " ++ squoteS ++ q ++ squoteS)
    ∧ search_diary_entries st10 ("a" ++ squoteS ++ "b") =
        Except.error ⟨500, "Invalid query"⟩
    ∧ containsCI ("a" ++ squoteS ++ "b.md") ("a" ++ squoteS ++ "b") = true
    ∧ search_diary_entries st10 ("note") =
        Except.ok [⟨0, "notes_1.md", "text/plain"⟩]
    ∧ containsCI ("note to self") ("note") = true := by
  exact ⟨fun q => rfl, rfl, by decide, rfl, by decide⟩

end Diary
